import Mathlib

/-!
Verification of the camera_calibrator repository's core logic.

The embedding below translates the C++ sources into Lean:
- `src/cpp/detect_corners.cpp` — candidate pattern-size generation and the
  pattern search loop (lines 36-105);
- `src/cpp/wasm_interface.cpp` — the embedded (wasm) `detectCorners` and
  `calibrateCamera` entry points (lines 71-268);
- `src/cpp/calibrate_camera.cpp` — the CLI data-file parser (lines 36-58)
  and the calibration / reprojection phases (lines 60-88).

External collaborators (OpenCV's `goodFeaturesToTrack`,
`findChessboardCorners`, `calibrateCamera`, `projectPoints`) are modelled as
oracle parameters, as the spec treats them as black boxes.  `std::sort` is
modelled relationally by its C++-standard postcondition (a permutation that
is sorted with respect to the comparator), since `std::sort` is not stable
and the standard does not fix the order of equivalent elements.
-/

namespace CameraCalib

/-- The `cv::Size` type, as used by both front ends: `Size(cols, rows)`
stores `width = cols`, `height = rows`.  The C++ fields are `int`. -/
structure CvSize where
  width : Int
  height : Int
deriving DecidableEq, Repr

/-- The sort key used by the auto-mode comparator:
`a.width * a.height` (detect_corners.cpp line 80, wasm_interface.cpp 106). -/
def area (s : CvSize) : Int :=
  s.width * s.height

/-- Hinted-mode candidate list (detect_corners.cpp lines 38-47,
wasm_interface.cpp lines 85-91): push `Size(cols, rows)`, `Size(rows, cols)`,
and, when `cols > 1 && rows > 1`, also `Size(cols-1, rows-1)` and
`Size(rows-1, cols-1)`. -/
def hintedCandidates (rows cols : Int) : List CvSize :=
  [⟨cols, rows⟩, ⟨rows, cols⟩] ++
    (if cols > 1 ∧ rows > 1 then [⟨cols - 1, rows - 1⟩, ⟨rows - 1, cols - 1⟩] else [])

/-- Auto-mode candidate list before sorting (detect_corners.cpp lines 63-74,
wasm_interface.cpp lines 98-104): the double loop `for r in 3..20, for c in
3..20` pushes `Size(c, r)` whenever `r * c <= detectedCount + 20`.
`List.range' 3 18 = [3, ..., 20]` and `×ˢ` reproduces the loop order. -/
def autoCandidatesRaw (detectedCount : Nat) : List CvSize :=
  ((List.range' 3 18) ×ˢ (List.range' 3 18)).filterMap fun rc =>
    if rc.1 * rc.2 ≤ detectedCount + 20 then
      some ⟨(rc.2 : Int), (rc.1 : Int)⟩
    else
      none

/-- Postcondition of `std::sort(v, comp)` with `comp a b := area a > area b`
(detect_corners.cpp lines 79-81, wasm_interface.cpp lines 105-107): the output
is a permutation of the input that is sorted with respect to `comp`, i.e.
no later element has strictly greater area than an earlier one.  `std::sort`
is not stable, so the relative order of equal-area elements is not fixed. -/
def stdSortSpec (input output : List CvSize) : Prop :=
  List.Perm input output ∧ List.Pairwise (fun a b => area b ≤ area a) output

/-- The set of lists the auto-mode generator may produce for a given
feature-count estimate `detectedCount` (the result of
`goodFeaturesToTrack`). -/
def AutoCandidatesSpec (detectedCount : Nat) (l : List CvSize) : Prop :=
  stdSortSpec (autoCandidatesRaw detectedCount) l

/-- The candidate generator of both front ends: hinted mode when
`rows > 0 && cols > 0`, auto mode otherwise (detect_corners.cpp lines 38-85,
wasm_interface.cpp lines 85-108). -/
def CandidatesSpec (rows cols : Int) (detectedCount : Nat) (l : List CvSize) : Prop :=
  if rows > 0 ∧ cols > 0 then l = hintedCandidates rows cols
  else AutoCandidatesSpec detectedCount l

/-- The pattern search loop (detect_corners.cpp lines 94-105,
wasm_interface.cpp lines 115-122): try `findChessboardCorners` (the oracle
`f`, returning `some corners` on success) on each candidate in order and stop
at the first success.  The first component records the candidates actually
attempted; the second is the found size and its corners, if any. -/
def findPattern {α : Type} (f : CvSize → Option α) :
    List CvSize → List CvSize × Option (CvSize × α)
  | [] => ([], none)
  | s :: rest =>
    match f s with
    | some cs => ([s], some (s, cs))
    | none =>
      let r := findPattern f rest
      (s :: r.1, r.2)

/-- Modelled from the spec's words (§4.1), for comparison with the code: the
claimed total candidate order — area descending, ties by `r` (height)
ascending, then by `c` (width) ascending. -/
def specTieOrderLE (a b : CvSize) : Prop :=
  area b < area a ∨
    (area a = area b ∧ (a.height < b.height ∨ (a.height = b.height ∧ a.width ≤ b.width)))

instance (i o : List CvSize) : Decidable (stdSortSpec i o) :=
  inferInstanceAs (Decidable (List.Perm i o ∧ List.Pairwise (fun a b => area b ≤ area a) o))

instance (d : Nat) (l : List CvSize) : Decidable (AutoCandidatesSpec d l) :=
  inferInstanceAs (Decidable (stdSortSpec (autoCandidatesRaw d) l))

instance (r c : Int) (d : Nat) (l : List CvSize) : Decidable (CandidatesSpec r c d l) :=
  inferInstanceAs
    (Decidable (if r > 0 ∧ c > 0 then l = hintedCandidates r c else AutoCandidatesSpec d l))

instance : DecidableRel specTieOrderLE := fun a b =>
  inferInstanceAs (Decidable (area b < area a ∨
    (area a = area b ∧ (a.height < b.height ∨ (a.height = b.height ∧ a.width ≤ b.width)))))

/-- The auto-mode candidate list for `detectedCount = 0`, ordered as the spec
claims (area descending, ties by height then width ascending). -/
def c3Claimed : List CvSize :=
  [⟨5, 4⟩, ⟨4, 5⟩, ⟨6, 3⟩, ⟨3, 6⟩, ⟨4, 4⟩, ⟨5, 3⟩, ⟨3, 5⟩, ⟨4, 3⟩, ⟨3, 4⟩, ⟨3, 3⟩]

/-- A permutation of `autoCandidatesRaw 0` that also satisfies the
`std::sort` postcondition (area descending), but whose equal-area ties are
ordered contrary to the spec's claim: the two area-20 candidates appear with
height 5 before height 4. -/
def c3Swapped : List CvSize :=
  [⟨4, 5⟩, ⟨5, 4⟩, ⟨6, 3⟩, ⟨3, 6⟩, ⟨4, 4⟩, ⟨5, 3⟩, ⟨3, 5⟩, ⟨4, 3⟩, ⟨3, 4⟩, ⟨3, 3⟩]

/-! ## The calibration pipeline (wasm_interface.cpp and calibrate_camera.cpp)

Points are modelled over `ℝ` (the C++ code uses `float`/`double`; the claims
under verification are structural, not about rounding).  The external solver
(`cv::calibrateCamera`) and projector (`cv::projectPoints`) are oracle
parameters returning `Except`, mirroring the spec's fallible collaborator
interfaces. -/

/-- A 2-D image point (`cv::Point2f`). -/
abbrev Pt2 := ℝ × ℝ

/-- A 3-D object point (`cv::Point3f`). -/
abbrev Pt3 := ℝ × ℝ × ℝ

/-- A 3-vector (`rvec` / `tvec` entries read at indices 0..2). -/
abbrev V3 := ℝ × ℝ × ℝ

/-- A 3×3 camera matrix (entries read at indices (0..2, 0..2)). -/
abbrev M33 := V3 × V3 × V3

/-- A JS point object `{x, y[, z]}` as received by the wasm boundary:
the `z` property may be absent. -/
structure JsPt3 where
  x : ℝ
  y : ℝ
  z : Option ℝ

/-- Reading a JS point object (wasm_interface.cpp lines 186-190 and 200-203):
`z = pt.hasOwnProperty("z") ? pt["z"] : 0.0f`. -/
noncomputable def parseJsPt3 (p : JsPt3) : Pt3 :=
  (p.x, p.y, p.z.getD 0)

/-- One element of the JS `objPoints` argument.  The argument is a dynamic
value: each element is either a point object (shared layout) or an array of
point objects (per-view layout); the code decides which reading to use only
from the outer length. -/
inductive JsObjElem where
  | pt (p : JsPt3)
  | arr (pts : List JsPt3)

/-- Reading an element as a single point (the shared branch, lines 186-191).
Reading a property of an array element is not meaningful in the C++ code
(undefined JS property converted to float); the `arr` case stands for that
unspecified garbage value and is exercised by no claim. -/
noncomputable def elemAsPt : JsObjElem → Pt3
  | .pt p => parseJsPt3 p
  | .arr _ => (0, 0, 0)

/-- Reading an element as an inner point list (the per-view branch, lines
196-205).  On a non-array element the `length` property is undefined and
converts to 0, giving an empty list. -/
noncomputable def elemAsList : JsObjElem → List Pt3
  | .arr pts => pts.map parseJsPt3
  | .pt _ => []

/-- The object-point reconciliation of the wasm `calibrateCamera`
(wasm_interface.cpp lines 161-206): `sharedObjPoints = (objLen != N)`;
when shared, the whole collection is read as one flat point list and
replicated for all `N` views; otherwise element `i` is read as view `i`'s
inner point list. -/
noncomputable def reconcileObjectPoints (objPoints : List JsObjElem) (N : Nat) :
    List (List Pt3) :=
  if objPoints.length ≠ N then
    List.replicate N (objPoints.map elemAsPt)
  else
    objPoints.map elemAsList

/-- Output record of the external solver `cv::calibrateCamera`. -/
structure SolverOut where
  rms : ℝ
  cameraMatrix : M33
  distCoeffs : List ℝ
  rvecs : List V3
  tvecs : List V3

/-- The external calibration solver, as an oracle: object points, image
points, image size; throws (`Except.error`) on failure. -/
def Solver : Type :=
  List (List Pt3) → List (List Pt2) → Int × Int → Except String SolverOut

/-- The external projector `cv::projectPoints`, as an oracle: object points,
rvec, tvec, camera matrix, distortion; throws on failure. -/
def Projector : Type :=
  List Pt3 → V3 → V3 → M33 → List ℝ → Except String (List Pt2)

/-- The norm `cv::norm(a, b, NORM_L2)`: the Euclidean norm of the
element-wise difference of the two point sets. -/
noncomputable def normL2 (as bs : List Pt2) : ℝ :=
  Real.sqrt (((as.zip bs).map fun ab =>
    (ab.1.1 - ab.2.1) ^ 2 + (ab.1.2 - ab.2.2) ^ 2).sum)

/-- Indexing `v[i]` on the solver's rvec/tvec vectors. -/
def getV (l : List V3) (i : Nat) : V3 :=
  l.getD i (0, 0, 0)

/-- The per-view reprojection loop shared verbatim by both front ends
(calibrate_camera.cpp lines 77-84, wasm_interface.cpp lines 223-229):
for each view `i`, project the object points through `rvecs[i]`, `tvecs[i]`,
the intrinsics and distortion, let `err` be the L2 norm against the detected
image points, and record `sqrt(err*err / imagePoints[i].size())`.  A
projector failure aborts the loop with that error. -/
noncomputable def pveLoop (proj : Projector) (out : SolverOut) :
    List (List Pt3 × List Pt2) → Nat → Except String (List ℝ)
  | [], _ => .ok []
  | (ops, ips) :: rest, i =>
    match proj ops (getV out.rvecs i) (getV out.tvecs i) out.cameraMatrix out.distCoeffs with
    | .error e => .error e
    | .ok preds =>
      match pveLoop proj out rest (i + 1) with
      | .error e => .error e
      | .ok tail =>
        .ok (Real.sqrt (normL2 ips preds * normL2 ips preds / (ips.length : ℝ)) :: tail)

/-- The success record built by the wasm `calibrateCamera`
(wasm_interface.cpp lines 231-265): the solver's rms is stored as-is, the
per-view errors from the loop, and the solver's matrices/vectors copied
out element by element. -/
structure CalibOutput where
  rms : ℝ
  perViewErrors : List ℝ
  cameraMatrix : M33
  distCoeffs : List ℝ
  rvecs : List V3
  tvecs : List V3

/-- Outcome of one wasm `calibrateCamera` call.  `errorObj` is the returned
`{error: msg}` value built in the solver's catch block (lines 215-219);
`uncaught` is a C++ exception that escapes the function — there is no
try/catch around the reprojection loop, so a projector failure is not
converted into a return value. -/
inductive WasmResult where
  | errorObj (msg : String)
  | uncaught (msg : String)
  | ok (res : CalibOutput)

/-- The wasm `calibrateCamera` entry point (wasm_interface.cpp lines
151-268).  `N` is the length of the image-point argument; image points are
consumed as given (the per-field JS unmarshalling is the out-of-scope
boundary); object points go through `reconcileObjectPoints`; the solver call
is wrapped in try/catch, the reprojection loop is not. -/
noncomputable def wasmCalibrateCamera (solver : Solver) (proj : Projector)
    (allImagePoints : List (List Pt2)) (objPoints : List JsObjElem)
    (width height : Int) : WasmResult :=
  let N := allImagePoints.length
  let objectPoints := reconcileObjectPoints objPoints N
  match solver objectPoints allImagePoints (width, height) with
  | .error e => .errorObj e
  | .ok out =>
    match pveLoop proj out (objectPoints.zip allImagePoints) 0 with
    | .error e => .uncaught e
    | .ok pves =>
      .ok ⟨out.rms, pves, out.cameraMatrix, out.distCoeffs, out.rvecs, out.tvecs⟩

/-- The CLI calibration-and-reprojection phase (calibrate_camera.cpp lines
60-88): the solver call and the reprojection loop are each wrapped in
try/catch, producing the distinct structured failure messages
`OpenCV Calibration Error: ...` and `OpenCV Reprojection Error: ...`. -/
noncomputable def cliCalibrate (solver : Solver) (proj : Projector)
    (objectPoints : List (List Pt3)) (imagePoints : List (List Pt2))
    (width height : Int) : Except String (SolverOut × List ℝ) :=
  match solver objectPoints imagePoints (width, height) with
  | .error e => .error ("OpenCV Calibration Error: " ++ e)
  | .ok out =>
    match pveLoop proj out (objectPoints.zip imagePoints) 0 with
    | .error e => .error ("OpenCV Reprojection Error: " ++ e)
    | .ok pves => .ok (out, pves)

/-! ## The CLI data-file parser (calibrate_camera.cpp lines 36-58)

The file is a whitespace-separated token stream; coordinates are modelled as
rationals.  A failed `>>` extraction (exhausted stream) writes 0 to its
target, as C++11 `operator>>` does. -/

/-- One `>>` extraction from the token stream. -/
def readTok : List ℚ → ℚ × List ℚ
  | [] => (0, [])
  | t :: ts => (t, ts)

/-- The loop `for j < M: infile >> imagePoints[i][j].x >> imagePoints[i][j].y`
(line 52-54). -/
def readPts2 : Nat → List ℚ → List (ℚ × ℚ) × List ℚ
  | 0, s => ([], s)
  | m + 1, s =>
    let x := (readTok s).1
    let s1 := (readTok s).2
    let y := (readTok s1).1
    let s2 := (readTok s1).2
    let rest := readPts2 m s2
    ((x, y) :: rest.1, rest.2)

/-- The loop `for j < M: infile >> objectPoints[i][j].x >> .y >> .z`
(lines 55-57). -/
def readPts3 : Nat → List ℚ → List (ℚ × ℚ × ℚ) × List ℚ
  | 0, s => ([], s)
  | m + 1, s =>
    let x := (readTok s).1
    let s1 := (readTok s).2
    let y := (readTok s1).1
    let s2 := (readTok s1).2
    let z := (readTok s2).1
    let s3 := (readTok s2).2
    let rest := readPts3 m s3
    ((x, y, z) :: rest.1, rest.2)

/-- One view block (calibrate_camera.cpp lines 46-58): read the declared
count `M` (an integer token; `floor.toNat` renders `int M` from the rational
token model), then `M` image points, then `M` object points.  Both vectors
are sized by the same `M`. -/
def parseView (s : List ℚ) : (List (ℚ × ℚ) × List (ℚ × ℚ × ℚ)) × List ℚ :=
  let mq := (readTok s).1
  let s1 := (readTok s).2
  let M := mq.floor.toNat
  let ips := (readPts2 M s1).1
  let s2 := (readPts2 M s1).2
  let ops := (readPts3 M s2).1
  let s3 := (readPts3 M s2).2
  ((ips, ops), s3)

/-- The outer loop over the `N` view blocks (line 46). -/
def parseViews : Nat → List ℚ → List (List (ℚ × ℚ) × List (ℚ × ℚ × ℚ))
  | 0, _ => []
  | n + 1, s => (parseView s).1 :: parseViews n (parseView s).2

/-! ## Concrete oracles and inputs for witnesses and counterexamples -/

/-- Extract the success record of a `WasmResult`, with a fallback. -/
def WasmResult.okD : WasmResult → CalibOutput → CalibOutput
  | .ok r, _ => r
  | _, d => d

/-- An arbitrary calibration output, used only as an `okD` fallback. -/
noncomputable def anyCalibOutput : CalibOutput :=
  ⟨0, [], ((0, 0, 0), (0, 0, 0), (0, 0, 0)), [], [], []⟩

/-- A fixed successful solver result: rms 1, identity intrinsics, one view. -/
noncomputable def out0 : SolverOut :=
  ⟨1, ((1, 0, 0), (0, 1, 0), (0, 0, 1)), [], [(0, 0, 0)], [(0, 0, 0)]⟩

/-- A solver oracle that always succeeds with `out0`. -/
noncomputable def solverConst : Solver := fun _ _ _ => .ok out0

/-- A projector oracle that sends each object point to its (x, y) pair. -/
noncomputable def projXY : Projector := fun ops _ _ _ _ =>
  .ok (ops.map fun p => (p.1, p.2.1))

/-- A projector oracle that always throws. -/
def projFail : Projector := fun _ _ _ _ _ => .error "boom"

/-- A solver oracle that always throws. -/
def solverErr : Solver := fun _ _ _ => .error "bad"

/-- C1 input: one view with two detected image points. -/
noncomputable def c1Imgs : List (List Pt2) := [[(0, 0), (1, 1)]]

/-- C1 input: a per-view object-point collection (outer length 1 = N) whose
single inner list has only one point — a count mismatch with the view's two
image points. -/
noncomputable def c1Objs : List JsObjElem := [.arr [⟨0, 0, none⟩]]

/-- The record actually returned for the mismatched C1 input. -/
noncomputable def c1Res : CalibOutput :=
  (wasmCalibrateCamera solverConst projXY c1Imgs c1Objs 640 480).okD anyCalibOutput

/-- C2 input: two views of one image point each. -/
noncomputable def c2ImgsA : List (List Pt2) := [[(0, 0)], [(1, 0)]]

/-- C2 input: a per-view collection (outer length 2 = N). -/
noncomputable def c2ObjsA : List JsObjElem :=
  [.arr [⟨0, 0, none⟩], .arr [⟨1, 0, some 2⟩]]

/-- C2 input: a flat shared collection of 3 points (outer length 3 ≠ N). -/
noncomputable def c2ObjsB : List JsObjElem :=
  [.pt ⟨0, 0, none⟩, .pt ⟨1, 0, some 2⟩, .pt ⟨2, 2, none⟩]

/-- C5/C6 input: one view with one detected image point. -/
noncomputable def c5Imgs : List (List Pt2) := [[(0, 0)]]

/-- C5/C6 input: matching object points for `c5Imgs` (wasm form). -/
noncomputable def c5Objs : List JsObjElem := [.arr [⟨0, 0, none⟩]]

/-- C5 input: matching object points for `c5Imgs` (already-parsed CLI form). -/
noncomputable def c5ObjPts : List (List Pt3) := [[(0, 0, 0)]]

/-- The record returned for the well-formed C6 input. -/
noncomputable def c6Res : CalibOutput :=
  (wasmCalibrateCamera solverConst projXY c5Imgs c5Objs 64 48).okD anyCalibOutput

/-- C9 witness: the parsed view of `c9Stream`. -/
def c9View : List (ℚ × ℚ) × List (ℚ × ℚ × ℚ) :=
  ([(1, 2), (3, 4)], [(0, 0, 0), (1, 0, 0)])

/-- C9 witness: a token stream declaring M = 2, then two image points and two
object points. -/
def c9Stream : List ℚ := [2, 1, 2, 3, 4, 0, 0, 0, 1, 0, 0]

/-! ## Helper lemmas -/

theorem mem_autoCandidatesRaw (d : Nat) (s : CvSize) :
    s ∈ autoCandidatesRaw d ↔
      3 ≤ s.height ∧ s.height ≤ 20 ∧ 3 ≤ s.width ∧ s.width ≤ 20 ∧
        s.height * s.width ≤ (d : Int) + 20 := by
  unfold autoCandidatesRaw
  rw [List.mem_filterMap]
  constructor
  · rintro ⟨⟨r, c⟩, hmem, hf⟩
    rw [List.mem_product] at hmem
    obtain ⟨hr, hc⟩ := hmem
    rw [List.mem_range'_1] at hr hc
    split_ifs at hf with hcond
    · injection hf with hf
      subst hf
      dsimp only
      refine ⟨by omega, by omega, by omega, by omega, ?_⟩
      exact_mod_cast hcond
  · rintro ⟨h1, h2, h3, h4, h5⟩
    refine ⟨(s.height.toNat, s.width.toNat), ?_, ?_⟩
    · rw [List.mem_product]
      constructor <;> rw [List.mem_range'_1] <;> omega
    · have hh : ((s.height.toNat : Nat) : Int) = s.height := Int.toNat_of_nonneg (by omega)
      have hw : ((s.width.toNat : Nat) : Int) = s.width := Int.toNat_of_nonneg (by omega)
      have hcond : s.height.toNat * s.width.toNat ≤ d + 20 := by
        have hc2 : ((s.height.toNat * s.width.toNat : Nat) : Int) ≤ ((d + 20 : Nat) : Int) := by
          push_cast
          rw [hh, hw]
          exact h5
        exact_mod_cast hc2
      rw [if_pos hcond]
      cases s
      simp_all [CvSize.mk.injEq]

theorem nodup_autoCandidatesRaw (d : Nat) : (autoCandidatesRaw d).Nodup := by
  unfold autoCandidatesRaw
  apply List.Nodup.filterMap
  · rintro ⟨r, c⟩ ⟨r', c'⟩ b hb hb'
    split_ifs at hb hb' <;> simp_all [Option.mem_def]
    subst hb
    simp only [CvSize.mk.injEq, Nat.cast_inj] at hb'
    omega
  · exact List.Nodup.product (List.nodup_range' _ _) (List.nodup_range' _ _)

theorem findPattern_trace_ne_nil {α : Type} (f : CvSize → Option α) (x : CvSize)
    (xs : List CvSize) : (findPattern f (x :: xs)).1 ≠ [] := by
  cases hfx : f x <;> simp [findPattern, hfx]

theorem pveLoop_ok_getElem (proj : Projector) (out : SolverOut) :
    ∀ (pairs : List (List Pt3 × List Pt2)) (i0 : Nat) (l : List ℝ),
      pveLoop proj out pairs i0 = .ok l →
      ∀ (k : Nat) (ops : List Pt3) (ips : List Pt2) (preds : List Pt2),
        pairs[k]? = some (ops, ips) →
        proj ops (getV out.rvecs (i0 + k)) (getV out.tvecs (i0 + k))
          out.cameraMatrix out.distCoeffs = .ok preds →
        l[k]? = some (Real.sqrt (normL2 ips preds * normL2 ips preds / (ips.length : ℝ))) := by
  intro pairs
  induction pairs with
  | nil =>
    intro i0 l h k ops ips preds hk
    simp at hk
  | cons hd tl ih =>
    rcases hd with ⟨o, ip⟩
    intro i0 l h k ops ips preds hk hp
    simp only [pveLoop] at h
    cases hpo : proj o (getV out.rvecs i0) (getV out.tvecs i0)
        out.cameraMatrix out.distCoeffs with
    | error e => rw [hpo] at h; simp at h
    | ok preds0 =>
      rw [hpo] at h
      cases hloop : pveLoop proj out tl (i0 + 1) with
      | error e => rw [hloop] at h; simp at h
      | ok tail =>
        rw [hloop] at h
        simp only [Except.ok.injEq] at h
        subst h
        cases k with
        | zero =>
          simp only [List.getElem?_cons_zero, Option.some.injEq, Prod.mk.injEq] at hk
          obtain ⟨ho, hi⟩ := hk
          subst ho
          subst hi
          rw [Nat.add_zero] at hp
          rw [hp] at hpo
          simp only [Except.ok.injEq] at hpo
          subst hpo
          simp
        | succ k' =>
          simp only [List.getElem?_cons_succ] at hk
          have hidx : i0 + (k' + 1) = (i0 + 1) + k' := by omega
          rw [hidx] at hp
          simpa using ih (i0 + 1) tail hloop k' ops ips preds hk hp

theorem readPts2_length (m : Nat) : ∀ s : List ℚ, (readPts2 m s).1.length = m := by
  induction m with
  | zero => intro s; rfl
  | succ n ih => intro s; simp [readPts2, ih]

theorem readPts3_length (m : Nat) : ∀ s : List ℚ, (readPts3 m s).1.length = m := by
  induction m with
  | zero => intro s; rfl
  | succ n ih => intro s; simp [readPts3, ih]

/-! ## Claim theorems -/

/-- C3 counterexample: for `detectedCount = 0`, the list `c3Swapped` is a
legitimate output of the code's candidate generation — it is a permutation of
the generated set and satisfies the `std::sort` postcondition (area
descending) — yet its equal-area ties are NOT ordered by `r` ascending then
`c` ascending as the claim states (`⟨4,5⟩`, i.e. r = 5, precedes `⟨5,4⟩`,
i.e. r = 4, both of area 20).  `std::sort` with the strict area comparator is
not stable, so the code does not guarantee the claimed tie order. -/
theorem c3_tie_order_cex :
    AutoCandidatesSpec 0 c3Swapped ∧ ¬ List.Pairwise specTieOrderLE c3Swapped := by
  decide

/-- C3 (corrected): for every auto-mode invocation with feature estimate
`detectedCount`, any candidate list the code may produce contains exactly the
pattern sizes (r, c) with 3 ≤ r ≤ 20, 3 ≤ c ≤ 20 and
r·c ≤ detectedCount + 20, sorted by area r·c descending; the relative order
of equal-area candidates is not specified (the sort is unstable). -/
theorem c3_auto_candidates (d : Nat) (l : List CvSize) (h : AutoCandidatesSpec d l) :
    (∀ s : CvSize, s ∈ l ↔
      3 ≤ s.height ∧ s.height ≤ 20 ∧ 3 ≤ s.width ∧ s.width ≤ 20 ∧
        s.height * s.width ≤ (d : Int) + 20) ∧
    List.Pairwise (fun a b => area b ≤ area a) l :=
  ⟨fun s => (h.1.mem_iff).symm.trans (mem_autoCandidatesRaw d s), h.2⟩

/-- Witness for `c3_auto_candidates` at `detectedCount = 0` and the concrete
output `c3Claimed`. -/
theorem c3_auto_candidates_witness :
    AutoCandidatesSpec 0 c3Claimed ∧
    ((∀ s : CvSize, s ∈ c3Claimed ↔
        3 ≤ s.height ∧ s.height ≤ 20 ∧ 3 ≤ s.width ∧ s.width ≤ 20 ∧
          s.height * s.width ≤ ((0 : Nat) : Int) + 20) ∧
      List.Pairwise (fun a b => area b ≤ area a) c3Claimed) :=
  ⟨by decide, c3_auto_candidates 0 c3Claimed (by decide)⟩

/-- C4 (confirmed): for a hint (rows, cols) with both positive, the generator
yields exactly `Size(cols, rows)`, `Size(rows, cols)` and — when both exceed
1 — also `Size(cols-1, rows-1)`, `Size(rows-1, cols-1)`, in that order; when
rows = 1 or cols = 1 it yields exactly the first two. -/
theorem c4_hinted_candidates (rows cols : Int) (d : Nat) (l : List CvSize)
    (hr : 0 < rows) (hc : 0 < cols) (h : CandidatesSpec rows cols d l) :
    (1 < rows ∧ 1 < cols →
      l = [⟨cols, rows⟩, ⟨rows, cols⟩, ⟨cols - 1, rows - 1⟩, ⟨rows - 1, cols - 1⟩]) ∧
    ((rows = 1 ∨ cols = 1) → l = [⟨cols, rows⟩, ⟨rows, cols⟩]) := by
  unfold CandidatesSpec at h
  rw [if_pos ⟨hr, hc⟩] at h
  subst h
  unfold hintedCandidates
  constructor
  · rintro ⟨h1, h2⟩
    rw [if_pos ⟨h2, h1⟩]
    rfl
  · intro h1
    rw [if_neg ?_]
    · rfl
    · rintro ⟨a, b⟩
      rcases h1 with h1 | h1 <;> omega

/-- Witness for `c4_hinted_candidates` at the hint rows = 2, cols = 3. -/
theorem c4_hinted_candidates_witness :
    (0 < (2 : Int)) ∧ (0 < (3 : Int)) ∧ CandidatesSpec 2 3 0 (hintedCandidates 2 3) ∧
    ((1 < (2 : Int) ∧ 1 < (3 : Int) →
        hintedCandidates 2 3 = [⟨3, 2⟩, ⟨2, 3⟩, ⟨2, 1⟩, ⟨1, 2⟩]) ∧
      (((2 : Int) = 1 ∨ (3 : Int) = 1) → hintedCandidates 2 3 = [⟨3, 2⟩, ⟨2, 3⟩])) :=
  ⟨by decide, by decide, by decide,
    c4_hinted_candidates 2 3 0 (hintedCandidates 2 3) (by decide) (by decide) (by decide)⟩

/-- C7 (confirmed): the pattern search returns the first candidate (in list
order) on which the corner-finder succeeds, with that candidate's corners,
attempting no later candidate (its attempt trace is the failing prefix plus
the winner); when the finder fails on every candidate it reports failure with
every candidate attempted. -/
theorem c7_first_success {α : Type} (f : CvSize → Option α) :
    (∀ (l₁ : List CvSize) (s : CvSize) (cs : α) (l₂ : List CvSize),
        (∀ x ∈ l₁, f x = none) → f s = some cs →
        findPattern f (l₁ ++ s :: l₂) = (l₁ ++ [s], some (s, cs))) ∧
    (∀ l : List CvSize, (∀ x ∈ l, f x = none) → findPattern f l = (l, none)) := by
  constructor
  · intro l₁ s cs l₂ hfail hs
    induction l₁ with
    | nil => simp [findPattern, hs]
    | cons x xs ih =>
      have hx : f x = none := hfail x (by simp)
      simp [findPattern, hx, ih (fun y hy => hfail y (by simp [hy]))]
  · intro l hfail
    induction l with
    | nil => rfl
    | cons x xs ih =>
      have hx : f x = none := hfail x (by simp)
      simp [findPattern, hx, ih (fun y hy => hfail y (by simp [hy]))]

/-- A concrete corner-finder oracle: succeeds exactly on the 4×4 size. -/
def f7 : CvSize → Option Nat := fun s => if s = ⟨4, 4⟩ then some 7 else none

/-- Witness for `c7_first_success` on a three-candidate list whose second
entry succeeds, and on an all-failing one-candidate list. -/
theorem c7_first_success_witness :
    (∀ x ∈ [(⟨5, 5⟩ : CvSize)], f7 x = none) ∧ f7 ⟨4, 4⟩ = some 7 ∧
    findPattern f7 ([⟨5, 5⟩] ++ ⟨4, 4⟩ :: [⟨3, 3⟩]) = ([⟨5, 5⟩] ++ [⟨4, 4⟩], some (⟨4, 4⟩, 7)) ∧
    (∀ x ∈ [(⟨3, 3⟩ : CvSize)], f7 x = none) ∧
    findPattern f7 [⟨3, 3⟩] = ([⟨3, 3⟩], none) :=
  ⟨by decide, by decide,
    (c7_first_success f7).1 [⟨5, 5⟩] ⟨4, 4⟩ 7 [⟨3, 3⟩] (by decide) (by decide),
    by decide, (c7_first_success f7).2 [⟨3, 3⟩] (by decide)⟩

/-- C8 counterexample: the hinted generator with the square hint
rows = cols = 5 — accepted by the code, which requires only positivity —
produces `[⟨5,5⟩, ⟨5,5⟩, ⟨4,4⟩, ⟨4,4⟩]`, which contains duplicates (the
swapped variant of a square hint coincides with the hint; the source itself
notes "r,c and c,r can be dupes if square" and removes none). -/
theorem c8_square_hint_cex :
    CandidatesSpec 5 5 0 (hintedCandidates 5 5) ∧
    hintedCandidates 5 5 = [⟨5, 5⟩, ⟨5, 5⟩, ⟨4, 4⟩, ⟨4, 4⟩] ∧
    ¬ (hintedCandidates 5 5).Nodup := by
  decide

/-- C8 (corrected): every auto-mode candidate list is duplicate-free, and a
hinted-mode candidate list is duplicate-free whenever rows ≠ cols; for a
square hint (rows = cols) the sequence contains duplicates. -/
theorem c8_nodup_amended :
    (∀ rows cols : Int, 0 < rows → 0 < cols → rows ≠ cols →
      (hintedCandidates rows cols).Nodup) ∧
    (∀ (d : Nat) (l : List CvSize), AutoCandidatesSpec d l → l.Nodup) := by
  constructor
  · intro rows cols hr hc hne
    unfold hintedCandidates
    split_ifs with h
    · simp only [List.cons_append, List.nil_append, List.nodup_cons, List.mem_cons,
        List.mem_singleton, List.not_mem_nil, or_false, CvSize.mk.injEq, not_or, not_and,
        List.nodup_nil, and_true, not_false_eq_true]
      omega
    · simp only [List.append_nil, List.nodup_cons, List.mem_singleton, List.not_mem_nil,
        CvSize.mk.injEq, not_and, List.nodup_nil, and_true, not_false_eq_true]
      omega
  · intro d l h
    exact h.1.nodup (nodup_autoCandidatesRaw d)

/-- Witness for `c8_nodup_amended`: the non-square hint (2, 3) and the
auto-mode output `c3Claimed`. -/
theorem c8_nodup_amended_witness :
    (0 < (2 : Int)) ∧ (0 < (3 : Int)) ∧ ((2 : Int) ≠ 3) ∧
    (hintedCandidates 2 3).Nodup ∧
    AutoCandidatesSpec 0 c3Claimed ∧ c3Claimed.Nodup :=
  ⟨by decide, by decide, by decide,
    c8_nodup_amended.1 2 3 (by decide) (by decide) (by decide),
    by decide, c8_nodup_amended.2 0 c3Claimed (by decide)⟩

/-- C10 (confirmed): every auto-mode candidate list is non-empty — every size
with 3 ≤ r, c ≤ 20 and r·c ≤ 20 is included regardless of the (always
non-negative) feature estimate — and the pattern search on such a list
attempts at least one candidate whatever the corner-finder does. -/
theorem c10_auto_nonempty (d : Nat) (l : List CvSize) (h : AutoCandidatesSpec d l) :
    l ≠ [] ∧
    (∀ s : CvSize, 3 ≤ s.height → s.height ≤ 20 → 3 ≤ s.width → s.width ≤ 20 →
      s.height * s.width ≤ 20 → s ∈ l) ∧
    (∀ (α : Type) (f : CvSize → Option α), (findPattern f l).1 ≠ []) := by
  have hmem : ∀ s : CvSize, 3 ≤ s.height → s.height ≤ 20 → 3 ≤ s.width → s.width ≤ 20 →
      s.height * s.width ≤ 20 → s ∈ l := by
    intro s h3 h20 hw3 hw20 harea
    refine (h.1.mem_iff).mp ((mem_autoCandidatesRaw d s).mpr ⟨h3, h20, hw3, hw20, ?_⟩)
    refine le_trans harea ?_
    have := Int.natCast_nonneg d
    omega
  have h33 : (⟨3, 3⟩ : CvSize) ∈ l := hmem ⟨3, 3⟩ (by decide) (by decide) (by decide)
    (by decide) (by decide)
  have hne : l ≠ [] := List.ne_nil_of_mem h33
  refine ⟨hne, hmem, ?_⟩
  intro α f
  cases hl : l with
  | nil => exact absurd hl hne
  | cons x xs => exact findPattern_trace_ne_nil f x xs

/-- Witness for `c10_auto_nonempty` at `detectedCount = 0` with the concrete
output `c3Claimed`. -/
theorem c10_auto_nonempty_witness :
    AutoCandidatesSpec 0 c3Claimed ∧
    (c3Claimed ≠ [] ∧
      (∀ s : CvSize, 3 ≤ s.height → s.height ≤ 20 → 3 ≤ s.width → s.width ≤ 20 →
        s.height * s.width ≤ 20 → s ∈ c3Claimed) ∧
      (∀ (α : Type) (f : CvSize → Option α), (findPattern f c3Claimed).1 ≠ [])) :=
  ⟨by decide, c10_auto_nonempty 0 c3Claimed (by decide)⟩

/-- C1 counterexample: for a one-view input whose object-point set has 1
point but whose image-point set has 2 (a per-view count mismatch after
reconciliation), the wasm `calibrateCamera` raises no error of any kind —
there is no point-count check in the code — and calibration proceeds to a
success record whenever the external solver and projector succeed. -/
theorem c1_pointcount_cex :
    (reconcileObjectPoints c1Objs 1).map List.length = [1] ∧
    c1Imgs.map List.length = [2] ∧
    wasmCalibrateCamera solverConst projXY c1Imgs c1Objs 640 480 = .ok c1Res :=
  ⟨rfl, rfl, rfl⟩

/-- C1 (corrected): the reconciliation stage enforces no per-view count
invariant and defines no `PointCountMismatch` error.  The only structured
error value the wasm `calibrateCamera` can return is the external solver's
own failure payload: the call returns the `{error: msg}` object exactly when
the solver throws, regardless of whether any view's counts mismatch. -/
theorem c1_error_only_from_solver (solver : Solver) (proj : Projector)
    (imgs : List (List Pt2)) (objs : List JsObjElem) (w h : Int) (e : String) :
    wasmCalibrateCamera solver proj imgs objs w h = .errorObj e ↔
      solver (reconcileObjectPoints objs imgs.length) imgs (w, h) = .error e := by
  simp only [wasmCalibrateCamera]
  cases hs : solver (reconcileObjectPoints objs imgs.length) imgs (w, h) with
  | error e' => simp
  | ok out =>
    cases hp : pveLoop proj out ((reconcileObjectPoints objs imgs.length).zip imgs) 0 with
    | error e' => simp [hp]
    | ok pves => simp [hp]

/-- Witness for `c1_error_only_from_solver` with an always-throwing solver
on the C1 input. -/
theorem c1_error_only_from_solver_witness :
    wasmCalibrateCamera solverErr projXY c1Imgs c1Objs 640 480 = .errorObj "bad" ↔
      solverErr (reconcileObjectPoints c1Objs c1Imgs.length) c1Imgs (640, 480) =
        .error "bad" :=
  c1_error_only_from_solver solverErr projXY c1Imgs c1Objs 640 480 "bad"

/-- C2 (confirmed): with N image-point sets, an object-points collection of
outer length N is consumed per-view — inner list i (z defaulting to 0 where
absent) becomes view i's object points, positionally — while any other outer
length makes the whole collection one shared flat point list, replicated
identically for all N views. -/
theorem c2_object_point_reconciler (imgs : List (List Pt2)) (objs : List JsObjElem) :
    (objs.length = imgs.length →
      reconcileObjectPoints objs imgs.length = objs.map elemAsList ∧
      ∀ i : Nat, (reconcileObjectPoints objs imgs.length)[i]? = (objs[i]?).map elemAsList) ∧
    (objs.length ≠ imgs.length →
      reconcileObjectPoints objs imgs.length =
        List.replicate imgs.length (objs.map elemAsPt)) := by
  constructor
  · intro hlen
    have he : reconcileObjectPoints objs imgs.length = objs.map elemAsList := by
      unfold reconcileObjectPoints
      rw [if_neg (by omega)]
    refine ⟨he, fun i => ?_⟩
    rw [he, List.getElem?_map]
  · intro hlen
    unfold reconcileObjectPoints
    rw [if_pos hlen]

/-- Witness for `c2_object_point_reconciler`: a per-view collection of outer
length 2 for 2 views, and a flat shared collection of length 3 ≠ 2. -/
theorem c2_object_point_reconciler_witness :
    c2ObjsA.length = c2ImgsA.length ∧
    (reconcileObjectPoints c2ObjsA c2ImgsA.length = c2ObjsA.map elemAsList ∧
      ∀ i : Nat,
        (reconcileObjectPoints c2ObjsA c2ImgsA.length)[i]? = (c2ObjsA[i]?).map elemAsList) ∧
    c2ObjsB.length ≠ c2ImgsA.length ∧
    reconcileObjectPoints c2ObjsB c2ImgsA.length =
      List.replicate c2ImgsA.length (c2ObjsB.map elemAsPt) :=
  ⟨rfl, (c2_object_point_reconciler c2ImgsA c2ObjsA).1 rfl, by decide,
    (c2_object_point_reconciler c2ImgsA c2ObjsB).2 (by decide)⟩

/-- C5 (code_bug): a projector failure during per-view re-projection IS
caught and surfaced as the distinct structured message
`OpenCV Reprojection Error: ...` by the CLI front end, but the wasm front end
wraps only the solver call in try/catch — its reprojection loop (lines
222-229) is outside any handler, so the same failure escapes as an uncaught
exception crossing the core/boundary seam, contradicting the claim that no
exception crosses the seam in either front end. -/
theorem c5_uncaught_reprojection_bug :
    wasmCalibrateCamera solverConst projFail c5Imgs c5Objs 64 48 = .uncaught "boom" ∧
    cliCalibrate solverConst projFail c5ObjPts c5Imgs 64 48 =
      .error ("OpenCV Reprojection Error: " ++ "boom") :=
  ⟨rfl, rfl⟩

/-- C6 (confirmed): when the wasm `calibrateCamera` succeeds, the reported
rms is exactly the external solver's return value (whatever it is — it is
never recomputed from the per-view errors), and the reported per-view error
of view k is `sqrt(err * err / count_k)` where `err` is the L2 norm between
view k's detected image points and the projector's predicted points and
`count_k` is the view's image-point count. -/
theorem c6_perview_error_formula (solver : Solver) (proj : Projector)
    (imgs : List (List Pt2)) (objs : List JsObjElem) (w h : Int)
    (out : SolverOut) (res : CalibOutput)
    (hs : solver (reconcileObjectPoints objs imgs.length) imgs (w, h) = .ok out)
    (hw : wasmCalibrateCamera solver proj imgs objs w h = .ok res) :
    res.rms = out.rms ∧
    ∀ (k : Nat) (ops : List Pt3) (ips : List Pt2) (preds : List Pt2),
      ((reconcileObjectPoints objs imgs.length).zip imgs)[k]? = some (ops, ips) →
      proj ops (getV out.rvecs k) (getV out.tvecs k)
        out.cameraMatrix out.distCoeffs = .ok preds →
      res.perViewErrors[k]? =
        some (Real.sqrt (normL2 ips preds * normL2 ips preds / (ips.length : ℝ))) := by
  simp only [wasmCalibrateCamera] at hw
  rw [hs] at hw
  dsimp only at hw
  cases hloop : pveLoop proj out ((reconcileObjectPoints objs imgs.length).zip imgs) 0 with
  | error e => rw [hloop] at hw; simp at hw
  | ok pves =>
    rw [hloop] at hw
    simp only [WasmResult.ok.injEq] at hw
    subst hw
    refine ⟨rfl, ?_⟩
    intro k ops ips preds hk hp
    have hp' : proj ops (getV out.rvecs (0 + k)) (getV out.tvecs (0 + k))
        out.cameraMatrix out.distCoeffs = .ok preds := by
      rw [Nat.zero_add]
      exact hp
    exact pveLoop_ok_getElem proj out _ 0 pves hloop k ops ips preds hk hp'

/-- Witness for `c6_perview_error_formula` on a well-formed one-view input
with the constant solver and the x/y projector. -/
theorem c6_perview_error_formula_witness :
    solverConst (reconcileObjectPoints c5Objs c5Imgs.length) c5Imgs (64, 48) = .ok out0 ∧
    wasmCalibrateCamera solverConst projXY c5Imgs c5Objs 64 48 = .ok c6Res ∧
    (c6Res.rms = out0.rms ∧
      ∀ (k : Nat) (ops : List Pt3) (ips : List Pt2) (preds : List Pt2),
        ((reconcileObjectPoints c5Objs c5Imgs.length).zip c5Imgs)[k]? = some (ops, ips) →
        projXY ops (getV out0.rvecs k) (getV out0.tvecs k)
          out0.cameraMatrix out0.distCoeffs = .ok preds →
        c6Res.perViewErrors[k]? =
          some (Real.sqrt (normL2 ips preds * normL2 ips preds / (ips.length : ℝ)))) :=
  ⟨rfl, rfl,
    c6_perview_error_formula solverConst projXY c5Imgs c5Objs 64 48 out0 c6Res rfl rfl⟩

/-- C9 (confirmed): every view block the CLI data-file parser produces has
its image-point vector and object-point vector sized by the same declared
count M, so the per-view counts always agree by construction, for every
token stream (including truncated ones, where failed extractions read 0). -/
theorem c9_parser_counts (N : Nat) (s : List ℚ) :
    ∀ v ∈ parseViews N s, v.1.length = v.2.length := by
  induction N generalizing s with
  | zero =>
    intro v hv
    simp [parseViews] at hv
  | succ n ih =>
    intro v hv
    simp only [parseViews, List.mem_cons] at hv
    rcases hv with hv | hv
    · subst hv
      simp [parseView, readPts2_length, readPts3_length]
    · exact ih _ v hv

/-- Witness for `c9_parser_counts` on a stream declaring M = 2. -/
theorem c9_parser_counts_witness :
    c9View ∈ parseViews 1 c9Stream ∧ c9View.1.length = c9View.2.length :=
  ⟨by decide, c9_parser_counts 1 c9Stream c9View (by decide)⟩

end CameraCalib
